import Mathlib

/-!
Verification of the `network_researcher.py` configuration-and-glue program.

The program is embedded shallowly: the process environment is a partial map
from variable names to string values, remote tool discovery is a function from
a server URL to either an error or a list of tools, and the startup sequence of
`main` is a function returning `Except String Agent`.  Definitions follow the
source file `network_researcher.py`; the few operations performed by external
libraries (the MCP client's `get_tools` aggregation) are modelled from the
spec's description and say so in their doc comments.
-/

/-- The process environment: a partial map from variable names to values.
`none` means the variable is unset; `some ""` means set to the empty string
(Python distinguishes the two, and so does `os.getenv`). -/
def Env : Type := String → Option String

/-- Python `os.getenv(key, default)`: the stored value when the variable is
set (even if empty), otherwise the default. -/
def getenv (env : Env) (key default : String) : String :=
  match env key with
  | some v => v
  | none => default

/-- One entry of the MCP server registry dictionaries: the `name`, `url` and
`description` keys of the Python dicts. -/
structure ServerInfo where
  name : String
  url : String
  description : String
deriving DecidableEq

/-- The module-level `MCP_SERVERS` dictionary, in insertion order. -/
def MCP_SERVERS (env : Env) : List (String × ServerInfo) :=
  [("ovs-vswitchd",
    { name := "Open vSwitch Database",
      url := getenv env "MCP_OVS_VSWITCHD_URL" "http://localhost:8080",
      description := "Manages Open vSwitch bridges, ports, interfaces, flow tables, and controllers" }),
   ("ovn-nb",
    { name := "OVN Northbound Database",
      url := getenv env "MCP_OVN_NB_URL" "http://localhost:8081",
      description := "Manages logical switches, routers, load balancers, ACLs, and DHCP options" }),
   ("ovn-sb",
    { name := "OVN Southbound Database",
      url := getenv env "MCP_OVN_SB_URL" "http://localhost:8082",
      description := "Manages chassis, datapaths, logical flows, port bindings, and MAC bindings" })]

/-- The module-level `IC_MCP_SERVERS` dictionary, in insertion order. -/
def IC_MCP_SERVERS (env : Env) : List (String × ServerInfo) :=
  [("ovn-ic-nb",
    { name := "OVN IC Northbound Database",
      url := getenv env "MCP_OVN_IC_NB_URL" "http://localhost:8083",
      description := "Manages interconnection global config, transit switches, and SSL configs" }),
   ("ovn-ic-sb",
    { name := "OVN IC Southbound Database",
      url := getenv env "MCP_OVN_IC_SB_URL" "http://localhost:8084",
      description := "Manages availability zones, gateways, and interconnection routing" })]

/-- One entry of the `mcp_config` dictionary handed to `MultiServerMCPClient`:
a transport kind and a URL. -/
structure McpConnection where
  transport : String
  url : String
deriving DecidableEq

/-- The `mcp_config` built in `main` by iterating `MCP_SERVERS` and, when
`args.ic` is set, additionally `IC_MCP_SERVERS` (lines 198-212 of the source).
The second, rebuilt configuration of lines 225-231 iterates only
`MCP_SERVERS`, i.e. it equals `buildMcpConfig env false`. -/
def buildMcpConfig (env : Env) (ic : Bool) : List (String × McpConnection) :=
  ((MCP_SERVERS env).map (fun p => (p.1, { transport := "streamable_http", url := p.2.url })))
    ++ (if ic then
          (IC_MCP_SERVERS env).map (fun p => (p.1, { transport := "streamable_http", url := p.2.url }))
        else [])

/-- A callable tool fetched from a remote MCP server; only its name matters to
the program (logging and de-duplication are by name). -/
structure Tool where
  name : String
deriving DecidableEq

/-- De-duplication by tool name, keeping the first occurrence of each name. -/
def dedupByNameGo (seen : List String) : List Tool → List Tool
  | [] => []
  | t :: ts =>
    if seen.contains t.name then dedupByNameGo seen ts
    else t :: dedupByNameGo (t.name :: seen) ts

def dedupByName (ts : List Tool) : List Tool := dedupByNameGo [] ts

/-- Modelled from the spec: `MultiServerMCPClient.get_tools` is third-party
library code not in this repository.  Per the spec's Tool Loader contract it
requests the full set of callable tools from every configured server and a
single discovery failure aborts the whole load.  `net` maps a server URL to
the outcome of tool discovery against that server. -/
def get_tools (net : String → Except String (List Tool)) :
    List (String × McpConnection) → Except String (List Tool)
  | [] => Except.ok []
  | (_, c) :: rest =>
    match net c.url with
    | Except.error e => Except.error e
    | Except.ok ts =>
      match get_tools net rest with
      | Except.error e => Except.error e
      | Except.ok ts2 => Except.ok (ts ++ ts2)

/-- Modelled from the spec: the Tool Loader returns a flat,
de-duplicated-by-name list. -/
def clientGetTools (net : String → Except String (List Tool))
    (config : List (String × McpConnection)) : Except String (List Tool) :=
  match get_tools net config with
  | Except.error e => Except.error e
  | Except.ok ts => Except.ok (dedupByName ts)

/-- The model-endpoint lookup and guard at the top of `main` (lines 173-179):
`os.getenv` with the default `http://localhost:11434`, followed by
`if not model_endpoint_url: raise ValueError(...)`.  In Python the guard fires
exactly when the resulting string is empty. -/
def modelEndpointCheck (env : Env) : Except String String :=
  let model_endpoint_url := getenv env "RESEARCHER_MODEL_ENDPOINT_URL" "http://localhost:11434"
  if model_endpoint_url = "" then
    Except.error "RESEARCHER_MODEL_ENDPOINT_URL environment variable must be set"
  else
    Except.ok model_endpoint_url

/-- The `ChatOpenAI` model client constructed in `main` (lines 184-191).  The
float temperature 0.1 is not modelled; the string and integer fields are. -/
structure ChatOpenAI where
  base_url : String
  api_key : String
  model_name : String
  max_tokens : Nat
deriving DecidableEq

/-- The system prompt string of `main` (lines 250-272), abbreviated to its
first line; the claims under verification do not depend on its text. -/
def systemPrompt : String :=
  "You are a network researcher that MUST use tools to gather information from OVS/OVN databases."

/-- The result of `create_react_agent(model, tools, prompt, checkpointer)`:
the agent holds the model client, the tool list it was given, and the prompt. -/
structure Agent where
  model : ChatOpenAI
  tools : List Tool
  prompt : String

/-- The parsed command-line arguments of `main`. -/
structure Args where
  interactive : Bool
  ic : Bool
  host : String
  port : Nat

/-- The startup sequence of `main` up to agent creation (lines 173-278):
check the model endpoint, build the MCP configuration (with IC servers when
`--ic` is set), discover tools, then rebuild the configuration from
`MCP_SERVERS` only, discover tools again, and create the agent with the tools
of the second discovery.  Any discovery failure propagates: the first
`get_tools` call is not guarded, the second is wrapped in a
`try`/`except` that logs and re-raises. -/
def mainStartup (env : Env) (net : String → Except String (List Tool))
    (args : Args) : Except String Agent :=
  match modelEndpointCheck env with
  | Except.error e => Except.error e
  | Except.ok model_endpoint_url =>
    let model_name := getenv env "RESEARCHER_MODEL_NAME" "default"
    let model : ChatOpenAI :=
      { base_url := model_endpoint_url, api_key := "dummy",
        model_name := model_name, max_tokens := 4096 }
    match clientGetTools net (buildMcpConfig env args.ic) with
    | Except.error e => Except.error e
    | Except.ok _tools1 =>
      match clientGetTools net (buildMcpConfig env false) with
      | Except.error e => Except.error e
      | Except.ok tools =>
        Except.ok { model := model, tools := tools, prompt := systemPrompt }

/-- The empty environment: every variable unset. -/
def envEmpty : Env := fun _ => none

/-- A network in which all five registry servers (at their default URLs)
answer tool discovery successfully, each with one tool named after it, and
every other URL refuses the connection. -/
def netAllServe : String → Except String (List Tool) := fun url =>
  if url = "http://localhost:8080" then Except.ok [{ name := "vswitchd_tool" }]
  else if url = "http://localhost:8081" then Except.ok [{ name := "nb_tool" }]
  else if url = "http://localhost:8082" then Except.ok [{ name := "sb_tool" }]
  else if url = "http://localhost:8083" then Except.ok [{ name := "ic_nb_tool" }]
  else if url = "http://localhost:8084" then Except.ok [{ name := "ic_sb_tool" }]
  else Except.error "connection refused"

/-- Python `str.strip()` with no argument: remove leading and trailing
whitespace. -/
def pyStrip (s : String) : String :=
  ⟨((s.data.dropWhile Char.isWhitespace).reverse.dropWhile Char.isWhitespace).reverse⟩

/-- Python `str.lower()` on the ASCII range (the program only compares
against ASCII keywords). -/
def pyLower (s : String) : String := ⟨s.data.map Char.toLower⟩

/-- The fixed canned query issued by the `test` keyword (line 313). -/
def cannedTestMessage : String := "Please summarize the logical network topology in OVN"

/-- What one iteration of the interactive loop decides to do with an input
line. -/
inductive UserTurn where
  | exitLoop
  | invokeAgent (content : String)
deriving DecidableEq

/-- The exit-keyword membership test `user_input.lower() in ["quit", "exit", "q"]`
of line 303. -/
def isExitKeyword (s : String) : Bool :=
  s = "quit" || s = "exit" || s = "q"

/-- The dispatch on a raw input line in the interactive loop (lines 301-327):
strip the line, exit on a quit keyword, substitute the canned query for
`test`, otherwise forward the stripped line verbatim.  Both invocation
branches pass the same fixed thread configuration, so the dispatched message
is a function of the input line alone. -/
def dispatchInput (raw : String) : UserTurn :=
  let user_input := pyStrip raw
  if isExitKeyword (pyLower user_input) then UserTurn.exitLoop
  else if pyLower user_input = "test" then UserTurn.invokeAgent cannedTestMessage
  else UserTurn.invokeAgent user_input

/-- A Python exception as seen by the interactive loop's handlers:
`KeyboardInterrupt` is handled separately from every other `Exception`. -/
inductive PyError where
  | keyboardInterrupt
  | exc (msg : String)
deriving DecidableEq

/-- The outcome of one iteration of the interactive `while True` loop:
`breakLoop` for the two `break` paths (quit keyword, `KeyboardInterrupt`),
`printedError` for the `except Exception` path that prints the error and
falls through to the next iteration, `answered` for a completed turn.
The loop body has no other exit: these constructors are exhaustive, so no
turn-time exception escapes the loop. -/
inductive TurnOutcome where
  | breakLoop
  | printedError (msg : String)
  | answered (messages : List String)
deriving DecidableEq

/-- One iteration of the interactive loop (lines 299-333): `readLine` is the
result of `input(...)` and `invoke` runs `agent.ainvoke` on a user message,
returning the response messages; either may raise.  The whole body sits in
`try`/`except KeyboardInterrupt`/`except Exception`. -/
def interactiveTurn (readLine : Except PyError String)
    (invoke : String → Except PyError (List String)) : TurnOutcome :=
  match readLine with
  | Except.error PyError.keyboardInterrupt => TurnOutcome.breakLoop
  | Except.error (PyError.exc m) => TurnOutcome.printedError m
  | Except.ok raw =>
    match dispatchInput raw with
    | UserTurn.exitLoop => TurnOutcome.breakLoop
    | UserTurn.invokeAgent msg =>
      match invoke msg with
      | Except.ok msgs => TurnOutcome.answered msgs
      | Except.error PyError.keyboardInterrupt => TurnOutcome.breakLoop
      | Except.error (PyError.exc m) => TurnOutcome.printedError m

/-- An HTTP response as assembled by the handler: status code, the
`Content-type` header when one is sent, and the body when one is written. -/
structure HttpResponse where
  status : Nat
  contentType : Option String
  body : Option String
deriving DecidableEq

/-- `HealthCheckHandler.do_GET` (lines 43-51): a function of the request path
alone — the handler reads no agent, tool or model state. -/
def do_GET (path : String) : HttpResponse :=
  if path = "/health" then
    { status := 200, contentType := some "text/plain", body := some "OK" }
  else
    { status := 404, contentType := none, body := none }

/-- A digit-string accumulator for the model of Python `int`. -/
def digitsVal : List Char → Nat → Option Nat
  | [], acc => some acc
  | c :: rest, acc =>
    if c.isDigit then digitsVal rest (acc * 10 + (c.toNat - 48)) else none

/-- Python `int(s)` on a plain decimal string: optional surrounding
whitespace, an optional sign, then at least one digit; anything else raises
`ValueError`, modelled as `none`. -/
def pyInt (s : String) : Option Int :=
  match (pyStrip s).data with
  | [] => none
  | '+' :: rest =>
    if rest.isEmpty then none else (digitsVal rest 0).map Int.ofNat
  | '-' :: rest =>
    if rest.isEmpty then none else (digitsVal rest 0).map (fun n => -(Int.ofNat n))
  | cs => (digitsVal cs 0).map Int.ofNat

/-- The result of `_start_health_server`: either the listener thread was
started on a port, or the `except Exception` clause logged the failure and
returned normally. -/
inductive HealthStartResult where
  | started (port : Int)
  | loggedError (msg : String)
deriving DecidableEq

/-- `_start_health_server` (lines 100-115): inside a `try`, parse
`HEALTH_PORT` (default `"8086"`) with `int`, construct the `HTTPServer`
(modelled by `bind`, which may fail, e.g. when the port is already bound) and
start the daemon thread; any exception is caught and logged, and the function
returns either way. -/
def _start_health_server (env : Env) (bind : Int → Except String Unit) :
    HealthStartResult :=
  match pyInt (getenv env "HEALTH_PORT" "8086") with
  | none => HealthStartResult.loggedError "invalid literal for int"
  | some health_port =>
    match bind health_port with
    | Except.error e => HealthStartResult.loggedError e
    | Except.ok _ => HealthStartResult.started health_port

/-- The top-level effects `main` performs after agent creation. -/
inductive MainAction where
  | runInteractiveLoop
  | initA2AAdapter
  | startHealthServer
  | runA2AServer (host : String) (port : Nat)
deriving DecidableEq

/-- The front-end dispatch of `main` (lines 293-374), as the ordered list of
top-level effects: with `--interactive` the loop runs and nothing else; the
`else` branch wraps the agent in the A2A adapter, calls
`_start_health_server`, and finally calls `run_server`. -/
def frontEndActions (args : Args) : List MainAction :=
  if args.interactive then [MainAction.runInteractiveLoop]
  else [MainAction.initA2AAdapter, MainAction.startHealthServer,
        MainAction.runA2AServer args.host args.port]

/-- The observable state of one network-mode run. -/
structure NetworkModeRun where
  health : HealthStartResult
  a2aServerRuns : Bool

/-- The `else` branch of the front-end dispatch (lines 335-374) in detail:
after the A2A adapter and agent card are set up, `_start_health_server` is
called — it returns normally in all cases — and then `run_server` is reached
unconditionally. -/
def networkFrontEnd (env : Env) (bind : Int → Except String Unit) :
    NetworkModeRun :=
  { health := _start_health_server env bind, a2aServerRuns := true }

/-- The environment-variable names and documented localhost defaults of the
five registry servers, in registry order, as the spec's external-interface
section lists them.  Stated separately from the source registry so the two
can be compared. -/
def specRegistryTable : List (String × String) :=
  [("MCP_OVS_VSWITCHD_URL", "http://localhost:8080"),
   ("MCP_OVN_NB_URL", "http://localhost:8081"),
   ("MCP_OVN_SB_URL", "http://localhost:8082"),
   ("MCP_OVN_IC_NB_URL", "http://localhost:8083"),
   ("MCP_OVN_IC_SB_URL", "http://localhost:8084")]

/-- The URLs of the full tool registry (base and IC dictionaries), in order. -/
def registryUrls (env : Env) : List String :=
  (MCP_SERVERS env ++ IC_MCP_SERVERS env).map (fun p => p.2.url)

/-- A network in which the `ovn-nb` server refuses tool discovery and every
other server answers. -/
def netOneDown : String → Except String (List Tool) := fun url =>
  if url = "http://localhost:8081" then Except.error "connection refused"
  else Except.ok [{ name := "some_tool" }]

/-- An environment overriding exactly one registry URL. -/
def envOverride : Env :=
  fun k => if k = "MCP_OVN_SB_URL" then some "http://sb.example:9999" else none

/-- An environment whose HEALTH_PORT is not a valid integer. -/
def envBadHealthPort : Env :=
  fun k => if k = "HEALTH_PORT" then some "not-a-number" else none

/-- An agent invocation that always raises an ordinary exception. -/
def invokeBoom : String → Except PyError (List String) :=
  fun _ => Except.error (PyError.exc "boom")

/-!
Theorems.  Each claim of the specification is settled by one theorem below;
helper lemmas precede the claim theorems that use them.
-/

/-- If tool discovery fails against any one server of the configuration, the
whole `get_tools` aggregation returns an error. -/
theorem get_tools_error_of_mem (net : String → Except String (List Tool))
    (cfg : List (String × McpConnection)) (k : String) (c : McpConnection)
    (e : String) (hmem : (k, c) ∈ cfg) (he : net c.url = Except.error e) :
    ∃ m, get_tools net cfg = Except.error m := by
  induction cfg with
  | nil => cases hmem
  | cons hd tl ih =>
    obtain ⟨k1, c1⟩ := hd
    rcases List.mem_cons.mp hmem with heq | htl
    · cases heq
      exact ⟨e, by simp [get_tools, he]⟩
    · obtain ⟨m, hm⟩ := ih htl
      cases hnet : net c1.url with
      | error e1 => exact ⟨e1, by simp [get_tools, hnet]⟩
      | ok ts => exact ⟨m, by simp [get_tools, hnet, hm]⟩

/-- The de-duplicating wrapper propagates a discovery error unchanged. -/
theorem clientGetTools_error_of_mem (net : String → Except String (List Tool))
    (cfg : List (String × McpConnection)) (k : String) (c : McpConnection)
    (e : String) (hmem : (k, c) ∈ cfg) (he : net c.url = Except.error e) :
    ∃ m, clientGetTools net cfg = Except.error m := by
  obtain ⟨m, hm⟩ := get_tools_error_of_mem net cfg k c e hmem he
  exact ⟨m, by simp [clientGetTools, hm]⟩

/-- C1 (code bug): with `--ic` set and all five registry servers at their
default URLs successfully serving tools, the agent is created with only the
three base servers' tools.  The `mcp_config` is rebuilt from `MCP_SERVERS`
alone (source lines 225-231) before the discovery whose result is handed to
`create_react_agent`, so the IC servers' tools — which the first discovery
did return, second conjunct — are dropped from the agent's tool list. -/
theorem ic_tools_dropped_at_agent_creation :
    (mainStartup envEmpty netAllServe
        { interactive := false, ic := true, host := "0.0.0.0", port := 8085 }).map Agent.tools
      = Except.ok [{ name := "vswitchd_tool" }, { name := "nb_tool" }, { name := "sb_tool" }] ∧
    clientGetTools netAllServe (buildMcpConfig envEmpty true)
      = Except.ok [{ name := "vswitchd_tool" }, { name := "nb_tool" }, { name := "sb_tool" },
                   { name := "ic_nb_tool" }, { name := "ic_sb_tool" }] :=
  ⟨rfl, rfl⟩

/-- C2 counterexample: with `RESEARCHER_MODEL_ENDPOINT_URL` unset, the guard
does not fire — the lookup yields the default and startup proceeds all the
way to an agent whose model client is built on the default base URL. -/
theorem missing_endpoint_env_uses_default :
    modelEndpointCheck envEmpty = Except.ok "http://localhost:11434" ∧
    ∃ a, mainStartup envEmpty netAllServe
        { interactive := false, ic := false, host := "0.0.0.0", port := 8085 } = Except.ok a
      ∧ a.model.base_url = "http://localhost:11434" := by
  exact ⟨rfl, ⟨_, rfl, rfl⟩⟩

/-- C2 (amended): when `RESEARCHER_MODEL_ENDPOINT_URL` is missing the default
`http://localhost:11434` is used and the startup check passes; the
`ValueError` is raised exactly when the variable is set to the empty
string. -/
theorem model_endpoint_missing_defaults (env : Env) :
    (env "RESEARCHER_MODEL_ENDPOINT_URL" = none →
      modelEndpointCheck env = Except.ok "http://localhost:11434") ∧
    (∀ v, env "RESEARCHER_MODEL_ENDPOINT_URL" = some v →
      modelEndpointCheck env =
        if v = "" then
          Except.error "RESEARCHER_MODEL_ENDPOINT_URL environment variable must be set"
        else Except.ok v) := by
  constructor
  · intro h
    simp [modelEndpointCheck, getenv, h]
  · intro v h
    by_cases hv : v = "" <;> simp [modelEndpointCheck, getenv, h, hv]

/-- C2 witness: the amended theorem evaluated on the empty environment. -/
theorem model_endpoint_missing_defaults_witness :
    envEmpty "RESEARCHER_MODEL_ENDPOINT_URL" = none ∧
    modelEndpointCheck envEmpty = Except.ok "http://localhost:11434" :=
  ⟨rfl, (model_endpoint_missing_defaults envEmpty).1 rfl⟩

/-- C3 counterexample: the canned query issued for `test` is the literal
string "Please summarize the logical network topology in OVN", not the
claimed "summarize the logical network topology". -/
theorem canned_query_differs_from_claimed_string :
    dispatchInput "test" = UserTurn.invokeAgent cannedTestMessage ∧
    cannedTestMessage ≠ "summarize the logical network topology" ∧
    dispatchInput "test" ≠ UserTurn.invokeAgent "summarize the logical network topology" :=
  ⟨by decide, by decide, by decide⟩

/-- C3 (amended): whenever the stripped, lowercased input equals `test`, the
agent is invoked with exactly the fixed canned message "Please summarize the
logical network topology in OVN"; `dispatchInput` is a function of the input
line alone, so the message is the same on every occurrence and independent of
prior conversation state. -/
theorem test_keyword_issues_fixed_canned_query (raw : String)
    (h : pyLower (pyStrip raw) = "test") :
    dispatchInput raw
      = UserTurn.invokeAgent "Please summarize the logical network topology in OVN" := by
  simp [dispatchInput, h, isExitKeyword, cannedTestMessage]

/-- C3 witness: the amended theorem evaluated on the input "  TEST ". -/
theorem test_keyword_issues_fixed_canned_query_witness :
    pyLower (pyStrip "  TEST ") = "test" ∧
    dispatchInput "  TEST "
      = UserTurn.invokeAgent "Please summarize the logical network topology in OVN" :=
  ⟨by decide, test_keyword_issues_fixed_canned_query "  TEST " (by decide)⟩

/-- C4 counterexample: with the empty environment, the startup configuration
holds five servers under `--ic` (not seven) and three without it (not five);
the registry itself defines five servers. -/
theorem registry_server_counts :
    (buildMcpConfig envEmpty true).length = 5 ∧ (buildMcpConfig envEmpty true).length ≠ 7 ∧
    (buildMcpConfig envEmpty false).length = 3 ∧ (buildMcpConfig envEmpty false).length ≠ 5 ∧
    (registryUrls envEmpty).length = 5 := by
  decide

/-- C4 (amended): the registry defines five servers (three base, two IC); the
startup configuration contains three servers without `--ic` and five with it;
and each registry URL equals the corresponding environment override when that
variable is set, and the documented localhost default (8080 through 8084)
otherwise. -/
theorem registry_urls_env_override_or_default (env : Env) :
    (buildMcpConfig env false).length = 3 ∧
    (buildMcpConfig env true).length = 5 ∧
    registryUrls env = specRegistryTable.map (fun p => getenv env p.1 p.2) ∧
    ∀ p ∈ specRegistryTable,
      (env p.1 = none → getenv env p.1 p.2 = p.2) ∧
      ∀ v, env p.1 = some v → getenv env p.1 p.2 = v := by
  refine ⟨rfl, rfl, rfl, ?_⟩
  intro p _
  constructor
  · intro h
    simp [getenv, h]
  · intro v h
    simp [getenv, h]

/-- C4 witness: the amended theorem evaluated on an environment that
overrides exactly the southbound URL. -/
theorem registry_urls_env_override_or_default_witness :
    (buildMcpConfig envOverride false).length = 3 ∧
    envOverride "MCP_OVN_SB_URL" = some "http://sb.example:9999" ∧
    getenv envOverride "MCP_OVN_SB_URL" "http://localhost:8082" = "http://sb.example:9999" ∧
    envOverride "MCP_OVS_VSWITCHD_URL" = none ∧
    getenv envOverride "MCP_OVS_VSWITCHD_URL" "http://localhost:8080" = "http://localhost:8080" := by
  refine ⟨(registry_urls_env_override_or_default envOverride).1, rfl, ?_, rfl, ?_⟩
  · exact ((registry_urls_env_override_or_default envOverride).2.2.2
      ("MCP_OVN_SB_URL", "http://localhost:8082") (by decide)).2 "http://sb.example:9999" rfl
  · exact ((registry_urls_env_override_or_default envOverride).2.2.2
      ("MCP_OVS_VSWITCHD_URL", "http://localhost:8080") (by decide)).1 rfl

/-- C5: if tool discovery fails against any one configured server, `main`'s
startup returns the error: no agent value is produced, so no agent is created
and no partial tool set reaches agent creation. -/
theorem discovery_failure_aborts_startup (env : Env)
    (net : String → Except String (List Tool)) (args : Args)
    (k : String) (c : McpConnection) (e : String)
    (hmem : (k, c) ∈ buildMcpConfig env args.ic)
    (he : net c.url = Except.error e) :
    ∃ m, mainStartup env net args = Except.error m := by
  cases hcheck : modelEndpointCheck env with
  | error e0 => exact ⟨e0, by simp [mainStartup, hcheck]⟩
  | ok u =>
    obtain ⟨m, hm⟩ :=
      clientGetTools_error_of_mem net (buildMcpConfig env args.ic) k c e hmem he
    exact ⟨m, by simp [mainStartup, hcheck, hm]⟩

/-- C5 witness: with the `ovn-nb` server refusing connections, startup
returns an error. -/
theorem discovery_failure_aborts_startup_witness :
    ("ovn-nb", ({ transport := "streamable_http", url := "http://localhost:8081" } : McpConnection))
        ∈ buildMcpConfig envEmpty false ∧
    netOneDown "http://localhost:8081" = Except.error "connection refused" ∧
    ∃ m, mainStartup envEmpty netOneDown
        { interactive := false, ic := false, host := "0.0.0.0", port := 8085 }
      = Except.error m :=
  ⟨by decide, rfl,
   discovery_failure_aborts_startup envEmpty netOneDown
     { interactive := false, ic := false, host := "0.0.0.0", port := 8085 }
     "ovn-nb" { transport := "streamable_http", url := "http://localhost:8081" }
     "connection refused" (by decide) rfl⟩

/-- C6 counterexample: in an interactive-mode invocation, starting the health
server is not among the effects `main` performs. -/
theorem interactive_mode_omits_health_server :
    MainAction.startHealthServer ∉
      frontEndActions { interactive := true, ic := false, host := "0.0.0.0", port := 8085 } := by
  decide

/-- C6 (amended): the health listener is started exactly in network (A2A)
mode: every non-interactive invocation starts it before running the A2A
server, and no interactive invocation starts it. -/
theorem health_server_started_only_in_network_mode (args : Args) :
    (args.interactive = false →
      frontEndActions args =
        [MainAction.initA2AAdapter, MainAction.startHealthServer,
         MainAction.runA2AServer args.host args.port]) ∧
    (args.interactive = true →
      MainAction.startHealthServer ∉ frontEndActions args) := by
  constructor
  · intro h
    simp [frontEndActions, h]
  · intro h
    simp [frontEndActions, h]

/-- C6 witness: the amended theorem evaluated on a network-mode invocation. -/
theorem health_server_started_only_in_network_mode_witness :
    ({ interactive := false, ic := false, host := "0.0.0.0", port := 8085 } : Args).interactive
      = false ∧
    frontEndActions { interactive := false, ic := false, host := "0.0.0.0", port := 8085 } =
      [MainAction.initA2AAdapter, MainAction.startHealthServer,
       MainAction.runA2AServer "0.0.0.0" 8085] :=
  ⟨rfl,
   (health_server_started_only_in_network_mode
     { interactive := false, ic := false, host := "0.0.0.0", port := 8085 }).1 rfl⟩

/-- C7: a GET for `/health` is answered 200 with body `OK`, and a GET for any
other path is answered 404; `do_GET` is a function of the request path alone,
so both responses are computed without reference to agent, tool, or model
state. -/
theorem health_endpoint_response_spec (p : String) (hp : p ≠ "/health") :
    do_GET "/health" = { status := 200, contentType := some "text/plain", body := some "OK" } ∧
    do_GET p = { status := 404, contentType := none, body := none } :=
  ⟨rfl, by simp [do_GET, hp]⟩

/-- C7 witness: the theorem evaluated at the path `/metrics`. -/
theorem health_endpoint_response_spec_witness :
    ("/metrics" : String) ≠ "/health" ∧
    do_GET "/health" = { status := 200, contentType := some "text/plain", body := some "OK" } ∧
    do_GET "/metrics" = { status := 404, contentType := none, body := none } :=
  ⟨by decide, health_endpoint_response_spec "/metrics" (by decide)⟩

/-- C8: any input line whose stripped, lowercased form is `quit`, `exit` or
`q` makes the dispatch exit the loop, and the loop iteration breaks without
invoking the agent — whatever the agent invocation would have returned. -/
theorem exit_keywords_terminate_loop (raw : String)
    (h : pyLower (pyStrip raw) = "quit" ∨ pyLower (pyStrip raw) = "exit" ∨
         pyLower (pyStrip raw) = "q") :
    dispatchInput raw = UserTurn.exitLoop ∧
    ∀ invoke : String → Except PyError (List String),
      interactiveTurn (Except.ok raw) invoke = TurnOutcome.breakLoop := by
  have hd : dispatchInput raw = UserTurn.exitLoop := by
    rcases h with h | h | h <;> simp [dispatchInput, isExitKeyword, h]
  exact ⟨hd, fun invoke => by simp [interactiveTurn, hd]⟩

/-- C8 witness: the theorem evaluated on the input "  Exit  ". -/
theorem exit_keywords_terminate_loop_witness :
    pyLower (pyStrip "  Exit  ") = "exit" ∧
    dispatchInput "  Exit  " = UserTurn.exitLoop ∧
    interactiveTurn (Except.ok "  Exit  ") (fun _ => Except.ok []) = TurnOutcome.breakLoop := by
  have h := exit_keywords_terminate_loop "  Exit  " (Or.inr (Or.inl (by decide)))
  exact ⟨by decide, h.1, h.2 (fun _ => Except.ok [])⟩

/-- C9: a KeyboardInterrupt — whether at the input prompt or during agent
invocation — makes the iteration break out of the loop cleanly, and any other
exception during agent invocation yields `printedError`, after which the loop
falls through to the next input; `TurnOutcome` is exhaustive, so no turn-time
exception escapes the loop and terminates the process. -/
theorem turn_errors_never_crash_loop
    (invoke : String → Except PyError (List String)) (raw m : String) :
    interactiveTurn (Except.error PyError.keyboardInterrupt) invoke = TurnOutcome.breakLoop ∧
    (∀ msg, dispatchInput raw = UserTurn.invokeAgent msg →
      invoke msg = Except.error PyError.keyboardInterrupt →
      interactiveTurn (Except.ok raw) invoke = TurnOutcome.breakLoop) ∧
    (∀ msg, dispatchInput raw = UserTurn.invokeAgent msg →
      invoke msg = Except.error (PyError.exc m) →
      interactiveTurn (Except.ok raw) invoke = TurnOutcome.printedError m) := by
  refine ⟨rfl, ?_, ?_⟩
  · intro msg hd hi
    simp [interactiveTurn, hd, hi]
  · intro msg hd hi
    simp [interactiveTurn, hd, hi]

/-- C9 witness: the theorem evaluated on the input "hello" against an agent
invocation that always raises. -/
theorem turn_errors_never_crash_loop_witness :
    dispatchInput "hello" = UserTurn.invokeAgent "hello" ∧
    invokeBoom "hello" = Except.error (PyError.exc "boom") ∧
    interactiveTurn (Except.error PyError.keyboardInterrupt) invokeBoom = TurnOutcome.breakLoop ∧
    interactiveTurn (Except.ok "hello") invokeBoom = TurnOutcome.printedError "boom" := by
  have h := turn_errors_never_crash_loop invokeBoom "hello" "boom"
  exact ⟨by decide, rfl, h.1, h.2.2 "hello" (by decide) rfl⟩

/-- C10: every failure inside `_start_health_server` — an unparseable
`HEALTH_PORT` value or a failing server bind — is caught and logged, and
network-mode startup still proceeds to run the A2A server. -/
theorem health_start_failure_does_not_block_network_mode
    (env : Env) (bind : Int → Except String Unit) :
    (networkFrontEnd env bind).a2aServerRuns = true ∧
    (pyInt (getenv env "HEALTH_PORT" "8086") = none →
      (networkFrontEnd env bind).health
        = HealthStartResult.loggedError "invalid literal for int") ∧
    (∀ p e, pyInt (getenv env "HEALTH_PORT" "8086") = some p → bind p = Except.error e →
      (networkFrontEnd env bind).health = HealthStartResult.loggedError e) := by
  refine ⟨rfl, ?_, ?_⟩
  · intro h
    simp [networkFrontEnd, _start_health_server, h]
  · intro p e hp hb
    simp [networkFrontEnd, _start_health_server, hp, hb]

/-- C10 witness: the theorem evaluated on an environment whose HEALTH_PORT is
not an integer; the A2A server still runs and the failure is logged. -/
theorem health_start_failure_does_not_block_network_mode_witness :
    pyInt (getenv envBadHealthPort "HEALTH_PORT" "8086") = none ∧
    (networkFrontEnd envBadHealthPort (fun _ => Except.ok ())).a2aServerRuns = true ∧
    (networkFrontEnd envBadHealthPort (fun _ => Except.ok ())).health
      = HealthStartResult.loggedError "invalid literal for int" := by
  have h := health_start_failure_does_not_block_network_mode envBadHealthPort
    (fun _ => Except.ok ())
  exact ⟨by decide, h.1, h.2.1 (by decide)⟩
